import Mathlib

/-!
# The UHID gamepad bridge of scrcpy (`app/src/uhid/gamepad_uhid.c`)

A shallow embedding of the gamepad processor (device / axis / button handlers
building UHID control messages) and of the HID output handler (rumble remap),
followed by the properties proved about them.

The collaborators the C file only calls (the HID gamepad codec, the controller
queue, the SDL game-controller API, the hex formatter) and the constants it only
names are the fields of `Env`; every theorem quantifies over them.
-/

namespace GamepadUhid

/-! ## Data model -/

/-- One byte of a report (`uint8_t`). -/
abbrev uint8_t := Fin 256

/-- The enumerators of `enum sc_control_msg_type` this file assigns. -/
inductive sc_control_msg_type
  | UHID_CREATE
  | UHID_INPUT
  | UHID_DESTROY
  deriving DecidableEq, Repr

/-- Modelled from the spec: the declaration of `struct sc_control_msg`
(control_msg.h) is not among the sources. The spec gives the three payloads as
`Create{id, report descriptor}`, `Input{id, report bytes}`, `Destroy{id}`; in C they are
the members `uhid_create`, `uhid_input`, `uhid_destroy` of one union, each a struct
whose first member is the 16-bit `id`. The first member of a struct has offset 0 and
so have all members of a union, hence the three `id` members are one storage cell:
`id0`. The other members are kept apart (the file never reads one through another). -/
structure sc_control_msg where
  type : sc_control_msg_type
  id0 : Nat
  report_desc : List uint8_t
  report_desc_size : Nat
  size : Nat
  data : Nat → uint8_t

/-- Read `msg.uhid_create.id`. -/
def sc_control_msg.uhid_create_id (msg : sc_control_msg) : Nat := msg.id0

/-- Read `msg.uhid_input.id`. -/
def sc_control_msg.uhid_input_id (msg : sc_control_msg) : Nat := msg.id0

/-- Read `msg.uhid_destroy.id`. -/
def sc_control_msg.uhid_destroy_id (msg : sc_control_msg) : Nat := msg.id0

/-- Write `msg.uhid_create.id = v`. -/
def sc_control_msg.set_uhid_create_id (msg : sc_control_msg) (v : Nat) : sc_control_msg :=
  { msg with id0 := v }

/-- Write `msg.uhid_input.id = v`. -/
def sc_control_msg.set_uhid_input_id (msg : sc_control_msg) (v : Nat) : sc_control_msg :=
  { msg with id0 := v }

/-- The action `struct sc_hid_open` the codec fills on a device attach. -/
structure sc_hid_open where
  hid_id : Nat
  report_desc : List uint8_t
  report_desc_size : Nat
  deriving DecidableEq, Repr

/-- The action `struct sc_hid_close` the codec fills on a device detach. -/
structure sc_hid_close where
  hid_id : Nat
  deriving DecidableEq, Repr

/-- The action `struct sc_hid_input` the codec fills on an axis or button change:
`data` is the array `uint8_t data[SC_HID_MAX_SIZE]`, indexed from 0. -/
structure sc_hid_input where
  hid_id : Nat
  data : Nat → uint8_t
  size : Nat

/-- The two values of `enum sc_gamepad_device_event_type`. -/
inductive sc_gamepad_device_event_type
  | SC_GAMEPAD_DEVICE_ADDED
  | SC_GAMEPAD_DEVICE_REMOVED
  deriving DecidableEq, Repr

/-- A device event: `event->type` and `event->gamepad_id`. -/
structure sc_gamepad_device_event where
  type : sc_gamepad_device_event_type
  gamepad_id : Nat
  deriving DecidableEq, Repr

/-- An axis event (which gamepad, which axis, new value); the processor hands it
to the codec unread. -/
structure sc_gamepad_axis_event where
  gamepad_id : Nat
  axis : Nat
  value : Int
  deriving DecidableEq, Repr

/-- A button event (which gamepad, press or release, which button); the
processor hands it to the codec unread. -/
structure sc_gamepad_button_event where
  gamepad_id : Nat
  pressed : Bool
  button : Nat
  deriving DecidableEq, Repr

/-- One entry of `gp->slots`: the file reads `slot->gamepad_id`; whatever else the
codec keeps per slot is `state`. -/
structure sc_hid_gamepad_slot (σ : Type) where
  gamepad_id : Nat
  state : σ

/-- The codec state `struct sc_hid_gamepad`: the slot array. -/
structure sc_hid_gamepad (σ : Type) where
  slots : List (sc_hid_gamepad_slot σ)

/-- The bridge `struct sc_gamepad_uhid`: the codec state and the controller its
`controller` pointer designates (`κ` is the controller's state). -/
structure sc_gamepad_uhid (σ κ : Type) where
  hid : sc_hid_gamepad σ
  controller : κ

/-- What the C file only calls or names. The generate functions return the codec
state they leave and the action on success (`none` for `false`); the push returns
the controller it leaves and its boolean result; `SDL_GameControllerFromInstanceID`
returns `none` for a null handle. -/
structure Env (σ κ γ : Type) where
  SC_HID_MAX_SIZE : Nat
  SC_HID_ID_GAMEPAD_FIRST : Nat
  sc_hid_gamepad_init : sc_hid_gamepad σ
  sc_hid_gamepad_generate_open :
    sc_hid_gamepad σ → Nat → sc_hid_gamepad σ × Option sc_hid_open
  sc_hid_gamepad_generate_close :
    sc_hid_gamepad σ → Nat → sc_hid_gamepad σ × Option sc_hid_close
  sc_hid_gamepad_generate_input_from_axis :
    sc_hid_gamepad σ → sc_gamepad_axis_event → sc_hid_gamepad σ × Option sc_hid_input
  sc_hid_gamepad_generate_input_from_button :
    sc_hid_gamepad σ → sc_gamepad_button_event → sc_hid_gamepad σ × Option sc_hid_input
  sc_controller_push_msg : κ → sc_control_msg → κ × Bool
  sc_str_to_hex_string : List uint8_t → Option (List Char)
  SDL_GameControllerFromInstanceID : Nat → Option γ

/-- What a handler does to the outside, in order. -/
inductive Effect (γ : Type)
  /-- A call of `sc_controller_push_msg` with the message and its result. -/
  | push (msg : sc_control_msg) (ok : Bool)
  /-- The `LOGE` after a failed push: the message class and, for an input, the name. -/
  | loge (type : sc_control_msg_type) (name : String)
  /-- The `LOGI` of an output report, with the hex dump when it could be built. -/
  | logi (hid_id : Nat) (hex : Option (List Char))
  /-- A call of `SDL_GameControllerRumble` with the four values its parameters get. -/
  | rumble (gc : Option γ) (low_frequency_rumble high_frequency_rumble duration_ms : Nat)

/-- How a handler can leave the defined behaviour of C. -/
inductive Fault
  /-- An `assert` failed. -/
  | assertion
  /-- An array element outside its object was accessed. -/
  | out_of_bounds
  deriving DecidableEq, Repr

/-- The messages of the push attempts among the effects, in order. -/
def pushes {γ : Type} : List (Effect γ) → List sc_control_msg
  | [] => []
  | Effect.push msg _ :: rest => msg :: pushes rest
  | _ :: rest => pushes rest

/-- The force-feedback calls among the effects, in order. -/
def rumbles {γ : Type} : List (Effect γ) → List (Option γ × Nat × Nat × Nat)
  | [] => []
  | Effect.rumble gc lo hi d :: rest => (gc, lo, hi, d) :: rumbles rest
  | _ :: rest => rumbles rest

/-! ## The processor -/

/-- The `memcpy(dst, src, n)` of the first `n` bytes of `src` over `dst`. -/
def memcpy (dst src : Nat → uint8_t) (n : Nat) : Nat → uint8_t :=
  fun i => if i < n then src i else dst i

/-- Push `msg`; on failure log `type` and `name`. The tail shared by the three
send functions. -/
def push_or_log {σ κ γ : Type} (E : Env σ κ γ) (gamepad : sc_gamepad_uhid σ κ)
    (msg : sc_control_msg) (name : String) : sc_gamepad_uhid σ κ × List (Effect γ) :=
  let r := E.sc_controller_push_msg gamepad.controller msg
  ({ gamepad with controller := r.1 },
   if r.2 then [Effect.push msg true] else [Effect.push msg false, Effect.loge msg.type name])

/-- The function `sc_gamepad_uhid_send_input`. `msg` on entry is the indeterminate
content of the uninitialised local. -/
def sc_gamepad_uhid_send_input {σ κ γ : Type} (E : Env σ κ γ)
    (gamepad : sc_gamepad_uhid σ κ) (hid_input : sc_hid_input) (name : String)
    (msg : sc_control_msg) : Except Fault (sc_gamepad_uhid σ κ × List (Effect γ)) :=
  let msg := { msg with type := sc_control_msg_type.UHID_INPUT }
  let msg := msg.set_uhid_input_id hid_input.hid_id
  if hid_input.size ≤ E.SC_HID_MAX_SIZE then
    let msg := { msg with data := memcpy msg.data hid_input.data hid_input.size }
    let msg := { msg with size := hid_input.size }
    Except.ok (push_or_log E gamepad msg name)
  else
    Except.error Fault.assertion

/-- The function `sc_gamepad_uhid_send_open`. -/
def sc_gamepad_uhid_send_open {σ κ γ : Type} (E : Env σ κ γ)
    (gamepad : sc_gamepad_uhid σ κ) (hid_open : sc_hid_open)
    (msg : sc_control_msg) : sc_gamepad_uhid σ κ × List (Effect γ) :=
  let msg := { msg with type := sc_control_msg_type.UHID_CREATE }
  let msg := msg.set_uhid_create_id hid_open.hid_id
  let msg := { msg with report_desc := hid_open.report_desc }
  let msg := { msg with report_desc_size := hid_open.report_desc_size }
  push_or_log E gamepad msg "gamepad"

/-- The function `sc_gamepad_uhid_send_close`: the id is written through the
`uhid_create` member. -/
def sc_gamepad_uhid_send_close {σ κ γ : Type} (E : Env σ κ γ)
    (gamepad : sc_gamepad_uhid σ κ) (hid_close : sc_hid_close)
    (msg : sc_control_msg) : sc_gamepad_uhid σ κ × List (Effect γ) :=
  let msg := { msg with type := sc_control_msg_type.UHID_DESTROY }
  let msg := msg.set_uhid_create_id hid_close.hid_id
  push_or_log E gamepad msg "gamepad"

/-- The function `sc_gamepad_processor_process_gamepad_device`. The `assert` of the
else branch holds by the type of `event.type`. -/
def sc_gamepad_processor_process_gamepad_device {σ κ γ : Type} (E : Env σ κ γ)
    (gamepad : sc_gamepad_uhid σ κ) (event : sc_gamepad_device_event)
    (msg : sc_control_msg) : sc_gamepad_uhid σ κ × List (Effect γ) :=
  match event.type with
  | sc_gamepad_device_event_type.SC_GAMEPAD_DEVICE_ADDED =>
    match E.sc_hid_gamepad_generate_open gamepad.hid event.gamepad_id with
    | (hid, none) => ({ gamepad with hid := hid }, [])
    | (hid, some hid_open) =>
      sc_gamepad_uhid_send_open E { gamepad with hid := hid } hid_open msg
  | sc_gamepad_device_event_type.SC_GAMEPAD_DEVICE_REMOVED =>
    match E.sc_hid_gamepad_generate_close gamepad.hid event.gamepad_id with
    | (hid, none) => ({ gamepad with hid := hid }, [])
    | (hid, some hid_close) =>
      sc_gamepad_uhid_send_close E { gamepad with hid := hid } hid_close msg

/-- The function `sc_gamepad_processor_process_gamepad_axis`. -/
def sc_gamepad_processor_process_gamepad_axis {σ κ γ : Type} (E : Env σ κ γ)
    (gamepad : sc_gamepad_uhid σ κ) (event : sc_gamepad_axis_event)
    (msg : sc_control_msg) : Except Fault (sc_gamepad_uhid σ κ × List (Effect γ)) :=
  match E.sc_hid_gamepad_generate_input_from_axis gamepad.hid event with
  | (hid, none) => Except.ok ({ gamepad with hid := hid }, [])
  | (hid, some hid_input) =>
    sc_gamepad_uhid_send_input E { gamepad with hid := hid } hid_input "gamepad axis" msg

/-- The function `sc_gamepad_processor_process_gamepad_button`. -/
def sc_gamepad_processor_process_gamepad_button {σ κ γ : Type} (E : Env σ κ γ)
    (gamepad : sc_gamepad_uhid σ κ) (event : sc_gamepad_button_event)
    (msg : sc_control_msg) : Except Fault (sc_gamepad_uhid σ κ × List (Effect γ)) :=
  match E.sc_hid_gamepad_generate_input_from_button gamepad.hid event with
  | (hid, none) => Except.ok ({ gamepad with hid := hid }, [])
  | (hid, some hid_input) =>
    sc_gamepad_uhid_send_input E { gamepad with hid := hid } hid_input "gamepad button" msg

/-- The function `sc_gamepad_uhid_init`: the codec state is initialised and the
controller stored; the `ops` table is the three handlers above. -/
def sc_gamepad_uhid_init {σ κ γ : Type} (E : Env σ κ γ) (controller : κ) :
    sc_gamepad_uhid σ κ :=
  { hid := E.sc_hid_gamepad_init, controller := controller }

/-! ## The HID output handler -/

/-- Conversion of a non-negative `int` to a `Uint16` parameter. -/
def to_Uint16 (n : Nat) : Nat := n % 2 ^ 16

/-- Conversion of a non-negative `int` to a `Uint32` parameter. -/
def to_Uint32 (n : Nat) : Nat := n % 2 ^ 32

/-- The argument expression `data[k] * 0xFFFF / 100` (k = 4, 5), an `int`. -/
def intensity_expr (b : uint8_t) : Nat := b.val * 0xFFFF / 100

/-- The argument expression `data[6] * 1000 / 0xFF`, an `int`. -/
def duration_expr (b : uint8_t) : Nat := b.val * 1000 / 0xFF

/-- The value the `Uint16` intensity parameter receives for the report byte `b`. -/
def rumble_intensity (b : uint8_t) : Nat := to_Uint16 (intensity_expr b)

/-- The value the `Uint32` duration parameter receives for the report byte `b`. -/
def rumble_duration (b : uint8_t) : Nat := to_Uint32 (duration_expr b)

/-- The function `sc_gamepad_uhid_process_hid_output`. The buffer `data` of `size`
bytes is the list `data` (`size = data.length`); `hid_id` is a `uint16_t`. An index
outside `gp->slots` or outside the buffer is a fault, reported instead of the effects.
The bridge is only read. -/
def sc_gamepad_uhid_process_hid_output {σ κ γ : Type} (E : Env σ κ γ)
    (gamepad : sc_gamepad_uhid σ κ) (hid_id : Nat) (data : List uint8_t) :
    Except Fault (List (Effect γ)) :=
  let log : Effect γ := Effect.logi hid_id (E.sc_str_to_hex_string data)
  if hid_id < E.SC_HID_ID_GAMEPAD_FIRST then
    Except.error Fault.out_of_bounds
  else
    match gamepad.hid.slots[hid_id - E.SC_HID_ID_GAMEPAD_FIRST]? with
    | none => Except.error Fault.out_of_bounds
    | some slot =>
      let gc := E.SDL_GameControllerFromInstanceID slot.gamepad_id
      match data[4]?, data[5]?, data[6]? with
      | some d4, some d5, some d6 =>
        Except.ok [log, Effect.rumble gc (rumble_intensity d4) (rumble_intensity d5)
          (rumble_duration d6)]
      | _, _, _ => Except.error Fault.out_of_bounds

/-! ## Event sequences -/

/-- An event the input subsystem delivers through the `ops` table. -/
inductive sc_gamepad_event
  | device (event : sc_gamepad_device_event)
  | axis (event : sc_gamepad_axis_event)
  | button (event : sc_gamepad_button_event)

/-- An axis or button event. -/
abbrev sc_gamepad_input_event := sc_gamepad_axis_event ⊕ sc_gamepad_button_event

/-- An axis or button event as an event of the `ops` table. -/
def sc_gamepad_input_event.to_event : sc_gamepad_input_event → sc_gamepad_event
  | Sum.inl e => sc_gamepad_event.axis e
  | Sum.inr e => sc_gamepad_event.button e

/-- The dispatch through `gamepad_processor.ops`. -/
def process_event {σ κ γ : Type} (E : Env σ κ γ) (gamepad : sc_gamepad_uhid σ κ)
    (event : sc_gamepad_event) (msg : sc_control_msg) :
    Except Fault (sc_gamepad_uhid σ κ × List (Effect γ)) :=
  match event with
  | sc_gamepad_event.device e =>
    Except.ok (sc_gamepad_processor_process_gamepad_device E gamepad e msg)
  | sc_gamepad_event.axis e => sc_gamepad_processor_process_gamepad_axis E gamepad e msg
  | sc_gamepad_event.button e => sc_gamepad_processor_process_gamepad_button E gamepad e msg

/-- The handlers run on a sequence of events; `stack k` is the indeterminate
content of the message local of the call for the event number `k`, counted from `n`.
The effects are concatenated in order. -/
def run {σ κ γ : Type} (E : Env σ κ γ) (stack : Nat → sc_control_msg) :
    Nat → List sc_gamepad_event → sc_gamepad_uhid σ κ →
    Except Fault (sc_gamepad_uhid σ κ × List (Effect γ))
  | _, [], gamepad => Except.ok (gamepad, [])
  | n, event :: rest, gamepad =>
    match process_event E gamepad event (stack n) with
    | Except.error f => Except.error f
    | Except.ok (gamepad1, effects1) =>
      match run E stack (n + 1) rest gamepad1 with
      | Except.error f => Except.error f
      | Except.ok (gamepad2, effects2) => Except.ok (gamepad2, effects1 ++ effects2)

/-- The codec asked for the input action of an axis or button event. -/
def generate_input {σ κ γ : Type} (E : Env σ κ γ) (hid : sc_hid_gamepad σ) :
    sc_gamepad_input_event → sc_hid_gamepad σ × Option sc_hid_input
  | Sum.inl e => E.sc_hid_gamepad_generate_input_from_axis hid e
  | Sum.inr e => E.sc_hid_gamepad_generate_input_from_button hid e

/-- The codec alone on a sequence of axis and button events: the state it ends in
and the actions of the generations that succeeded, in event order. -/
def codec_inputs {σ κ γ : Type} (E : Env σ κ γ) :
    sc_hid_gamepad σ → List sc_gamepad_input_event → sc_hid_gamepad σ × List sc_hid_input
  | hid, [] => (hid, [])
  | hid, event :: rest =>
    match generate_input E hid event with
    | (hid1, none) => codec_inputs E hid1 rest
    | (hid1, some a) => ((codec_inputs E hid1 rest).1, a :: (codec_inputs E hid1 rest).2)

/-- An input message carries an input action: type, id, size and the first
`size` bytes. -/
def carries (msg : sc_control_msg) (a : sc_hid_input) : Prop :=
  msg.type = sc_control_msg_type.UHID_INPUT ∧ msg.uhid_input_id = a.hid_id ∧
  msg.size = a.size ∧ ∀ i, i < a.size → msg.data i = a.data i

/-- The result of an axis or button handler that relays the action `a`, the codec
having left the state `hid`: the handler returns normally, its effects are one push of a
UHID_INPUT message that carries `a`, followed only by the error log with the handler's
`name` when the push failed; the controller is the one the push left. -/
def relays {σ κ γ : Type} (E : Env σ κ γ) (gamepad : sc_gamepad_uhid σ κ)
    (hid : sc_hid_gamepad σ) (a : sc_hid_input) (name : String)
    (result : Except Fault (sc_gamepad_uhid σ κ × List (Effect γ))) : Prop :=
  ∃ sent : sc_control_msg, carries sent a ∧
    result = Except.ok
      ({ hid := hid, controller := (E.sc_controller_push_msg gamepad.controller sent).1 },
       Effect.push sent (E.sc_controller_push_msg gamepad.controller sent).2 ::
         if (E.sc_controller_push_msg gamepad.controller sent).2 then []
         else [Effect.loge sc_control_msg_type.UHID_INPUT name]) ∧
    Except.map (fun r => pushes r.2) result = Except.ok [sent]

/-- The lifecycle of one gamepad: added, the axis and button events, removed. -/
def lifecycle (gamepad_id : Nat) (events : List sc_gamepad_input_event) :
    List sc_gamepad_event :=
  sc_gamepad_event.device
      ⟨sc_gamepad_device_event_type.SC_GAMEPAD_DEVICE_ADDED, gamepad_id⟩ ::
    (events.map sc_gamepad_input_event.to_event ++
      [sc_gamepad_event.device
        ⟨sc_gamepad_device_event_type.SC_GAMEPAD_DEVICE_REMOVED, gamepad_id⟩])

/-! ## A sample environment

Concrete collaborators on which the handlers can be evaluated. -/

/-- Sample value of the unbound sentinel of a slot (`SC_GAMEPAD_ID_INVALID`). -/
def sample_invalid : Nat := 0xFFFFFFFF

/-- Sample report state of a slot: six axis bytes, then two bytes of buttons. -/
abbrev sample_report := List uint8_t

/-- The report of a gamepad at rest. -/
def sample_rest : sample_report := [128, 128, 128, 128, 0, 0, 0, 0]

/-- The bytes of a report as the array of an input action. -/
def sample_data (r : sample_report) : Nat → uint8_t := fun i => r.getD i 0

/-- The input action for the slot `i` holding the report `r`. -/
def sample_input (first i : Nat) (r : sample_report) : sc_hid_input :=
  { hid_id := first + i, data := sample_data r, size := r.length }

/-- The index of the slot bound to `gamepad_id`, if any. -/
def sample_find (hid : sc_hid_gamepad sample_report) (gamepad_id : Nat) : Option Nat :=
  hid.slots.findIdx? (fun slot => decide (slot.gamepad_id = gamepad_id))

/-- The slot `i` replaced. -/
def sample_set (hid : sc_hid_gamepad sample_report) (i gamepad_id : Nat)
    (r : sample_report) : sc_hid_gamepad sample_report :=
  { slots := hid.slots.set i { gamepad_id := gamepad_id, state := r } }

/-- A signed 16-bit axis value as a report byte. -/
def sample_axis_byte (value : Int) : uint8_t :=
  Fin.ofNat (((value + 32768) / 256).toNat)

/-- The two button bytes with the button `b` set or cleared. -/
def sample_buttons (lo hi : uint8_t) (b : Nat) (pressed : Bool) : uint8_t × uint8_t :=
  let old := lo.val + 256 * hi.val
  let bit := 2 ^ b
  let cleared := old - (if old / bit % 2 = 1 then bit else 0)
  let v := if pressed then cleared + bit else cleared
  (Fin.ofNat (v % 256), Fin.ofNat (v / 256))

/-- Modelled from the spec: the HID gamepad codec (hid/hid_gamepad.c), the controller
and the SDL library are not among the sources. This sample follows the spec's data
model: a fixed table of slots indexed by `hid_id - first`, a slot holding the native
gamepad id bound to it or the unbound sentinel; open binds the first free slot, close
releases the slot of the gamepad, an input is generated only for a bound gamepad and a
mapped axis or button; generations that fail change nothing. The controller is a
queue that accepts every message; a native id below 16 has a controller handle. -/
def sample_env (first : Nat) : Env sample_report (List sc_control_msg) Nat where
  SC_HID_MAX_SIZE := 15
  SC_HID_ID_GAMEPAD_FIRST := first
  sc_hid_gamepad_init :=
    { slots := List.replicate 8 { gamepad_id := sample_invalid, state := sample_rest } }
  sc_hid_gamepad_generate_open := fun hid gamepad_id =>
    match sample_find hid sample_invalid with
    | none => (hid, none)
    | some i =>
      (sample_set hid i gamepad_id sample_rest,
       some { hid_id := first + i, report_desc := [5, 1, 9, 5], report_desc_size := 4 })
  sc_hid_gamepad_generate_close := fun hid gamepad_id =>
    match sample_find hid gamepad_id with
    | none => (hid, none)
    | some i => (sample_set hid i sample_invalid sample_rest, some { hid_id := first + i })
  sc_hid_gamepad_generate_input_from_axis := fun hid event =>
    match sample_find hid event.gamepad_id with
    | none => (hid, none)
    | some i =>
      if event.axis < 6 then
        let r := ((hid.slots.map (fun slot => slot.state)).getD i sample_rest).set
          event.axis (sample_axis_byte event.value)
        (sample_set hid i event.gamepad_id r, some (sample_input first i r))
      else (hid, none)
  sc_hid_gamepad_generate_input_from_button := fun hid event =>
    match sample_find hid event.gamepad_id with
    | none => (hid, none)
    | some i =>
      if event.button < 16 then
        let old := (hid.slots.map (fun slot => slot.state)).getD i sample_rest
        let bs := sample_buttons (old.getD 6 0) (old.getD 7 0) event.button event.pressed
        let r := (old.set 6 bs.1).set 7 bs.2
        (sample_set hid i event.gamepad_id r, some (sample_input first i r))
      else (hid, none)
  sc_controller_push_msg := fun queue msg => (queue ++ [msg], true)
  sc_str_to_hex_string := fun data =>
    some (data.flatMap (fun b => Nat.toDigits 16 (b.val / 16) ++ Nat.toDigits 16 (b.val % 16)))
  SDL_GameControllerFromInstanceID := fun id => if id < 16 then some id else none

/-- An indeterminate message content for the sample runs. -/
def sample_junk : sc_control_msg :=
  { type := sc_control_msg_type.UHID_DESTROY, id0 := 0xDEAD, report_desc := [],
    report_desc_size := 77, size := 2, data := fun _ => 0xAA }

/-- The type and the id cell of a message. -/
def summary (msg : sc_control_msg) : sc_control_msg_type × Nat :=
  (msg.type, msg.id0)

/-- The first `size` data bytes of a message. -/
def report (msg : sc_control_msg) : List uint8_t :=
  (List.range msg.size).map msg.data

/-- The sample lifecycle: axis 0 (X) to its maximum, button 0 (A) pressed. -/
def sample_events : List sc_gamepad_input_event :=
  [Sum.inl { gamepad_id := 7, axis := 0, value := 32767 },
   Sum.inr { gamepad_id := 7, pressed := true, button := 0 }]

/-- The sample bridge after the gamepad 7 was added: it is bound to the first slot. -/
def sample_bound (first : Nat) : sc_gamepad_uhid sample_report (List sc_control_msg) :=
  (sc_gamepad_processor_process_gamepad_device (sample_env first)
    (sc_gamepad_uhid_init (sample_env first) [])
    ⟨sc_gamepad_device_event_type.SC_GAMEPAD_DEVICE_ADDED, 7⟩ sample_junk :
      sc_gamepad_uhid sample_report (List sc_control_msg) × List (Effect Nat)).1

/-! ## Shared lemmas -/

/-- The push attempts of two runs of effects in a row. -/
theorem pushes_append {γ : Type} (l₁ l₂ : List (Effect γ)) :
    pushes (l₁ ++ l₂) = pushes l₁ ++ pushes l₂ := by
  induction l₁ with
  | nil => rfl
  | cons e rest ih => cases e <;> simp [pushes, ih]

/-- The push attempts of a list of accepted pushes are its messages. -/
theorem pushes_map_push {γ : Type} (l : List sc_control_msg) :
    pushes (l.map (fun m => (Effect.push m true : Effect γ))) = l := by
  induction l with
  | nil => rfl
  | cons m rest ih => simp [pushes, ih]

/-- Pushing a message is one push attempt, accepted or not. -/
theorem pushes_push_or_log {σ κ γ : Type} (E : Env σ κ γ) (gamepad : sc_gamepad_uhid σ κ)
    (msg : sc_control_msg) (name : String) :
    pushes (push_or_log E gamepad msg name).2 = [msg] := by
  unfold push_or_log
  cases h : (E.sc_controller_push_msg gamepad.controller msg).2 <;> simp [pushes, h]

/-- The state and the effects of `push_or_log`, spelled out. -/
theorem push_or_log_eq {σ κ γ : Type} (E : Env σ κ γ) (gamepad : sc_gamepad_uhid σ κ)
    (msg : sc_control_msg) (name : String) :
    push_or_log E gamepad msg name =
      ({ hid := gamepad.hid,
         controller := (E.sc_controller_push_msg gamepad.controller msg).1 },
       Effect.push msg (E.sc_controller_push_msg gamepad.controller msg).2 ::
         if (E.sc_controller_push_msg gamepad.controller msg).2 then []
         else [Effect.loge msg.type name]) := by
  unfold push_or_log
  cases h : (E.sc_controller_push_msg gamepad.controller msg).2 <;> simp [h]

/-- Within the size bound, `sc_gamepad_uhid_send_input` pushes a message that carries
the action. -/
theorem send_input_eq {σ κ γ : Type} (E : Env σ κ γ) (gamepad : sc_gamepad_uhid σ κ)
    (a : sc_hid_input) (name : String) (msg : sc_control_msg)
    (hsize : a.size ≤ E.SC_HID_MAX_SIZE) :
    ∃ sent : sc_control_msg, carries sent a ∧
      sc_gamepad_uhid_send_input E gamepad a name msg =
        Except.ok (push_or_log E gamepad sent name) := by
  refine ⟨⟨sc_control_msg_type.UHID_INPUT, a.hid_id, msg.report_desc, msg.report_desc_size,
    a.size, memcpy msg.data a.data a.size⟩, ?_, ?_⟩
  · refine ⟨rfl, rfl, rfl, ?_⟩
    intro i hi
    simp [memcpy, hi]
  · simp [sc_gamepad_uhid_send_input, sc_control_msg.set_uhid_input_id, hsize]

/-- Within the size bound, `sc_gamepad_uhid_send_input` relays the action. -/
theorem relays_send_input {σ κ γ : Type} (E : Env σ κ γ) (gamepad : sc_gamepad_uhid σ κ)
    (hid : sc_hid_gamepad σ) (a : sc_hid_input) (name : String) (msg : sc_control_msg)
    (hsize : a.size ≤ E.SC_HID_MAX_SIZE) :
    relays E gamepad hid a name
      (sc_gamepad_uhid_send_input E { hid := hid, controller := gamepad.controller } a name
        msg) := by
  obtain ⟨sent, hc, hsend⟩ :=
    send_input_eq E { hid := hid, controller := gamepad.controller } a name msg hsize
  refine ⟨sent, hc, ?_, ?_⟩
  · rw [hsend, push_or_log_eq, hc.1]
  · rw [hsend]
    simp only [Except.map]
    rw [pushes_push_or_log]

/-- The ADDED branch after a successful `generate_open`. -/
theorem device_added_eq {σ κ γ : Type} (E : Env σ κ γ) (gamepad : sc_gamepad_uhid σ κ)
    (gamepad_id : Nat) (msg : sc_control_msg) (hid : sc_hid_gamepad σ)
    (hid_open : sc_hid_open)
    (h : E.sc_hid_gamepad_generate_open gamepad.hid gamepad_id = (hid, some hid_open)) :
    (sc_gamepad_processor_process_gamepad_device E gamepad
      ⟨sc_gamepad_device_event_type.SC_GAMEPAD_DEVICE_ADDED, gamepad_id⟩ msg :
        sc_gamepad_uhid σ κ × List (Effect γ)) =
      push_or_log E ⟨hid, gamepad.controller⟩
        ⟨sc_control_msg_type.UHID_CREATE, hid_open.hid_id, hid_open.report_desc,
          hid_open.report_desc_size, msg.size, msg.data⟩ "gamepad" := by
  simp only [sc_gamepad_processor_process_gamepad_device, h, sc_gamepad_uhid_send_open,
    sc_control_msg.set_uhid_create_id]

/-- The REMOVED branch after a successful `generate_close`. -/
theorem device_removed_eq {σ κ γ : Type} (E : Env σ κ γ) (gamepad : sc_gamepad_uhid σ κ)
    (gamepad_id : Nat) (msg : sc_control_msg) (hid : sc_hid_gamepad σ)
    (hid_close : sc_hid_close)
    (h : E.sc_hid_gamepad_generate_close gamepad.hid gamepad_id = (hid, some hid_close)) :
    (sc_gamepad_processor_process_gamepad_device E gamepad
      ⟨sc_gamepad_device_event_type.SC_GAMEPAD_DEVICE_REMOVED, gamepad_id⟩ msg :
        sc_gamepad_uhid σ κ × List (Effect γ)) =
      push_or_log E ⟨hid, gamepad.controller⟩
        ⟨sc_control_msg_type.UHID_DESTROY, hid_close.hid_id, msg.report_desc,
          msg.report_desc_size, msg.size, msg.data⟩ "gamepad" := by
  simp only [sc_gamepad_processor_process_gamepad_device, h, sc_gamepad_uhid_send_close,
    sc_control_msg.set_uhid_create_id]

/-- Messages that carry actions of the id `h` are input messages of the id `h`. -/
theorem carries_id_of_forall₂ (h : Nat) :
    ∀ (inputs : List sc_control_msg) (acts : List sc_hid_input),
      List.Forall₂ carries inputs acts → (∀ a ∈ acts, a.hid_id = h) →
      ∀ m ∈ inputs, m.type = sc_control_msg_type.UHID_INPUT ∧ m.uhid_input_id = h := by
  intro inputs acts hrel
  induction hrel with
  | nil => intro _ m hm; simp at hm
  | cons hc _ ih =>
    intro hacts m hm
    rcases List.mem_cons.mp hm with rfl | hm
    · exact ⟨hc.1, hc.2.1.trans (hacts _ (List.mem_cons_self _ _))⟩
    · exact ih (fun a ha => hacts a (List.mem_cons_of_mem _ ha)) m hm

/-! ## The device handler -/

/-- C1: on an ADDED event, for every bridge state, gamepad id and content of the
message local: when `generate_open` fails the handler returns the controller untouched
with no effect at all (no push, no log), the codec state being the one the codec left;
when it succeeds with an open action, the effects are one push, of a UHID_CREATE message
whose id, report descriptor and descriptor size are those of the action, followed only
by the error log when that push failed, so the push attempts are that one message
whatever the push returned. -/
theorem process_gamepad_device_added {σ κ γ : Type} (E : Env σ κ γ)
    (gamepad : sc_gamepad_uhid σ κ) (gamepad_id : Nat) (msg : sc_control_msg) :
    match E.sc_hid_gamepad_generate_open gamepad.hid gamepad_id with
    | (hid, none) =>
      (sc_gamepad_processor_process_gamepad_device E gamepad
        ⟨sc_gamepad_device_event_type.SC_GAMEPAD_DEVICE_ADDED, gamepad_id⟩ msg :
          sc_gamepad_uhid σ κ × List (Effect γ)) =
        ({ hid := hid, controller := gamepad.controller }, [])
    | (hid, some hid_open) =>
      ∃ sent : sc_control_msg,
        sent.type = sc_control_msg_type.UHID_CREATE ∧
        sent.uhid_create_id = hid_open.hid_id ∧
        sent.report_desc = hid_open.report_desc ∧
        sent.report_desc_size = hid_open.report_desc_size ∧
        (sc_gamepad_processor_process_gamepad_device E gamepad
          ⟨sc_gamepad_device_event_type.SC_GAMEPAD_DEVICE_ADDED, gamepad_id⟩ msg :
            sc_gamepad_uhid σ κ × List (Effect γ)) =
          ({ hid := hid,
             controller := (E.sc_controller_push_msg gamepad.controller sent).1 },
           Effect.push sent (E.sc_controller_push_msg gamepad.controller sent).2 ::
             if (E.sc_controller_push_msg gamepad.controller sent).2 then []
             else [Effect.loge sc_control_msg_type.UHID_CREATE "gamepad"]) ∧
        pushes (sc_gamepad_processor_process_gamepad_device E gamepad
          ⟨sc_gamepad_device_event_type.SC_GAMEPAD_DEVICE_ADDED, gamepad_id⟩ msg :
            sc_gamepad_uhid σ κ × List (Effect γ)).2 = [sent] := by
  rcases h : E.sc_hid_gamepad_generate_open gamepad.hid gamepad_id with ⟨hid, _ | hid_open⟩
  · simp [sc_gamepad_processor_process_gamepad_device, h]
  · refine ⟨⟨sc_control_msg_type.UHID_CREATE, hid_open.hid_id, hid_open.report_desc,
      hid_open.report_desc_size, msg.size, msg.data⟩, rfl, rfl, rfl, rfl, ?_, ?_⟩
    · simp only [sc_gamepad_processor_process_gamepad_device, h,
        sc_gamepad_uhid_send_open, sc_control_msg.set_uhid_create_id]
      exact push_or_log_eq E _ _ _
    · simp only [sc_gamepad_processor_process_gamepad_device, h,
        sc_gamepad_uhid_send_open, sc_control_msg.set_uhid_create_id]
      exact pushes_push_or_log E _ _ _

/-- C2: on a REMOVED event, for every bridge state, gamepad id and content of the
message local: when `generate_close` fails there is no effect (no push); when it
succeeds with a close action, the effects are one push, of a message of type
UHID_DESTROY whose id read through the `uhid_destroy` member is the action's hid_id (it
was written through `uhid_create`), followed only by the error log when the push
failed. -/
theorem process_gamepad_device_removed {σ κ γ : Type} (E : Env σ κ γ)
    (gamepad : sc_gamepad_uhid σ κ) (gamepad_id : Nat) (msg : sc_control_msg) :
    match E.sc_hid_gamepad_generate_close gamepad.hid gamepad_id with
    | (hid, none) =>
      (sc_gamepad_processor_process_gamepad_device E gamepad
        ⟨sc_gamepad_device_event_type.SC_GAMEPAD_DEVICE_REMOVED, gamepad_id⟩ msg :
          sc_gamepad_uhid σ κ × List (Effect γ)) =
        ({ hid := hid, controller := gamepad.controller }, [])
    | (hid, some hid_close) =>
      ∃ sent : sc_control_msg,
        sent.type = sc_control_msg_type.UHID_DESTROY ∧
        sent.uhid_destroy_id = hid_close.hid_id ∧
        (sc_gamepad_processor_process_gamepad_device E gamepad
          ⟨sc_gamepad_device_event_type.SC_GAMEPAD_DEVICE_REMOVED, gamepad_id⟩ msg :
            sc_gamepad_uhid σ κ × List (Effect γ)) =
          ({ hid := hid,
             controller := (E.sc_controller_push_msg gamepad.controller sent).1 },
           Effect.push sent (E.sc_controller_push_msg gamepad.controller sent).2 ::
             if (E.sc_controller_push_msg gamepad.controller sent).2 then []
             else [Effect.loge sc_control_msg_type.UHID_DESTROY "gamepad"]) ∧
        pushes (sc_gamepad_processor_process_gamepad_device E gamepad
          ⟨sc_gamepad_device_event_type.SC_GAMEPAD_DEVICE_REMOVED, gamepad_id⟩ msg :
            sc_gamepad_uhid σ κ × List (Effect γ)).2 = [sent] := by
  rcases h : E.sc_hid_gamepad_generate_close gamepad.hid gamepad_id with ⟨hid, _ | hid_close⟩
  · simp [sc_gamepad_processor_process_gamepad_device, h]
  · refine ⟨⟨sc_control_msg_type.UHID_DESTROY, hid_close.hid_id, msg.report_desc,
      msg.report_desc_size, msg.size, msg.data⟩, rfl, rfl, ?_, ?_⟩
    · simp only [sc_gamepad_processor_process_gamepad_device, h,
        sc_gamepad_uhid_send_close, sc_control_msg.set_uhid_create_id]
      exact push_or_log_eq E _ _ _
    · simp only [sc_gamepad_processor_process_gamepad_device, h,
        sc_gamepad_uhid_send_close, sc_control_msg.set_uhid_create_id]
      exact pushes_push_or_log E _ _ _

/-! ## The axis and button handlers -/

/-- C3: for every bridge state, axis event, button event and content of the message
local, the codec's input actions having `size ≤ SC_HID_MAX_SIZE`: when the generation
fails the handler has no effect (no push); when it succeeds with an action, the effects
are one push, of a UHID_INPUT message whose id is the action's hid_id, whose size is the
action's size and whose first `size` data bytes are the action's, followed only by the
error log (with the handler's name) when that push failed: a failed push is not
repeated. The same for the axis and for the button handler. -/
theorem process_gamepad_input {σ κ γ : Type} (E : Env σ κ γ)
    (gamepad : sc_gamepad_uhid σ κ) (axis_event : sc_gamepad_axis_event)
    (button_event : sc_gamepad_button_event) (msg : sc_control_msg)
    (haxis : ∀ a ∈ (E.sc_hid_gamepad_generate_input_from_axis gamepad.hid axis_event).2,
      a.size ≤ E.SC_HID_MAX_SIZE)
    (hbutton :
      ∀ a ∈ (E.sc_hid_gamepad_generate_input_from_button gamepad.hid button_event).2,
        a.size ≤ E.SC_HID_MAX_SIZE) :
    (match E.sc_hid_gamepad_generate_input_from_axis gamepad.hid axis_event with
     | (hid, none) =>
       (sc_gamepad_processor_process_gamepad_axis E gamepad axis_event msg :
         Except Fault (sc_gamepad_uhid σ κ × List (Effect γ))) =
         Except.ok ({ hid := hid, controller := gamepad.controller }, [])
     | (hid, some a) =>
       relays E gamepad hid a "gamepad axis"
         (sc_gamepad_processor_process_gamepad_axis E gamepad axis_event msg)) ∧
    (match E.sc_hid_gamepad_generate_input_from_button gamepad.hid button_event with
     | (hid, none) =>
       (sc_gamepad_processor_process_gamepad_button E gamepad button_event msg :
         Except Fault (sc_gamepad_uhid σ κ × List (Effect γ))) =
         Except.ok ({ hid := hid, controller := gamepad.controller }, [])
     | (hid, some a) =>
       relays E gamepad hid a "gamepad button"
         (sc_gamepad_processor_process_gamepad_button E gamepad button_event msg)) := by
  constructor
  · rcases h : E.sc_hid_gamepad_generate_input_from_axis gamepad.hid axis_event with
      ⟨hid, _ | a⟩
    · simp [sc_gamepad_processor_process_gamepad_axis, h]
    · have hsize : a.size ≤ E.SC_HID_MAX_SIZE := haxis a (by simp [h])
      simp only [sc_gamepad_processor_process_gamepad_axis, h]
      exact relays_send_input E gamepad hid a "gamepad axis" msg hsize
  · rcases h : E.sc_hid_gamepad_generate_input_from_button gamepad.hid button_event with
      ⟨hid, _ | a⟩
    · simp [sc_gamepad_processor_process_gamepad_button, h]
    · have hsize : a.size ≤ E.SC_HID_MAX_SIZE := hbutton a (by simp [h])
      simp only [sc_gamepad_processor_process_gamepad_button, h]
      exact relays_send_input E gamepad hid a "gamepad button" msg hsize

/-- Witness of C3 on the sample bridge with the gamepad 7 bound: the axis X moved and
the button A pressed. -/
theorem process_gamepad_input_witness :
    (∀ a ∈ ((sample_env 48).sc_hid_gamepad_generate_input_from_axis (sample_bound 48).hid
        ⟨7, 0, 32767⟩).2, a.size ≤ (sample_env 48).SC_HID_MAX_SIZE) ∧
    (∀ a ∈ ((sample_env 48).sc_hid_gamepad_generate_input_from_button (sample_bound 48).hid
        ⟨7, true, 0⟩).2, a.size ≤ (sample_env 48).SC_HID_MAX_SIZE) ∧
    ((match (sample_env 48).sc_hid_gamepad_generate_input_from_axis (sample_bound 48).hid
        ⟨7, 0, 32767⟩ with
     | (hid, none) =>
       (sc_gamepad_processor_process_gamepad_axis (sample_env 48) (sample_bound 48)
         ⟨7, 0, 32767⟩ sample_junk :
         Except Fault (sc_gamepad_uhid sample_report (List sc_control_msg) ×
           List (Effect Nat))) =
         Except.ok ({ hid := hid, controller := (sample_bound 48).controller }, [])
     | (hid, some a) =>
       relays (sample_env 48) (sample_bound 48) hid a "gamepad axis"
         (sc_gamepad_processor_process_gamepad_axis (sample_env 48) (sample_bound 48)
           ⟨7, 0, 32767⟩ sample_junk)) ∧
    (match (sample_env 48).sc_hid_gamepad_generate_input_from_button (sample_bound 48).hid
        ⟨7, true, 0⟩ with
     | (hid, none) =>
       (sc_gamepad_processor_process_gamepad_button (sample_env 48) (sample_bound 48)
         ⟨7, true, 0⟩ sample_junk :
         Except Fault (sc_gamepad_uhid sample_report (List sc_control_msg) ×
           List (Effect Nat))) =
         Except.ok ({ hid := hid, controller := (sample_bound 48).controller }, [])
     | (hid, some a) =>
       relays (sample_env 48) (sample_bound 48) hid a "gamepad button"
         (sc_gamepad_processor_process_gamepad_button (sample_env 48) (sample_bound 48)
           ⟨7, true, 0⟩ sample_junk))) :=
  have haxis : ∀ a ∈ ((sample_env 48).sc_hid_gamepad_generate_input_from_axis
      (sample_bound 48).hid ⟨7, 0, 32767⟩).2, a.size ≤ (sample_env 48).SC_HID_MAX_SIZE := by
    decide
  have hbutton : ∀ a ∈ ((sample_env 48).sc_hid_gamepad_generate_input_from_button
      (sample_bound 48).hid ⟨7, true, 0⟩).2, a.size ≤ (sample_env 48).SC_HID_MAX_SIZE := by
    decide
  ⟨haxis, hbutton,
    process_gamepad_input (sample_env 48) (sample_bound 48) ⟨7, 0, 32767⟩ ⟨7, true, 0⟩
      sample_junk haxis hbutton⟩

/-! ## Event sequences -/

/-- A run over two sequences in a row is the run over the first, then over the second. -/
theorem run_append {σ κ γ : Type} (E : Env σ κ γ) (stack : Nat → sc_control_msg)
    (l₁ l₂ : List sc_gamepad_event) :
    ∀ (n : Nat) (gamepad : sc_gamepad_uhid σ κ),
      (run E stack n (l₁ ++ l₂) gamepad :
        Except Fault (sc_gamepad_uhid σ κ × List (Effect γ))) =
      match run E stack n l₁ gamepad with
      | Except.error f => Except.error f
      | Except.ok (gamepad1, effects1) =>
        match run E stack (n + l₁.length) l₂ gamepad1 with
        | Except.error f => Except.error f
        | Except.ok (gamepad2, effects2) => Except.ok (gamepad2, effects1 ++ effects2) := by
  induction l₁ with
  | nil =>
    intro n gamepad
    simp only [List.nil_append, run, List.length_nil, Nat.add_zero]
    rcases run E stack n l₂ gamepad with f | ⟨g, e⟩ <;> simp
  | cons event rest ih =>
    intro n gamepad
    rw [List.cons_append]
    simp only [run, List.length_cons]
    cases h1 : process_event E gamepad event (stack n) with
    | error f => rfl
    | ok r1 =>
      obtain ⟨g1, e1⟩ := r1
      simp only [ih (n + 1) g1]
      have hn : n + 1 + rest.length = n + (rest.length + 1) := by omega
      cases h2 : run E stack (n + 1) rest g1 with
      | error f => rfl
      | ok r2 =>
        obtain ⟨g2, e2⟩ := r2
        simp only [hn]
        cases h3 : run E stack (n + (rest.length + 1)) l₂ g2 with
        | error f => rfl
        | ok r3 =>
          obtain ⟨g3, e3⟩ := r3
          simp [List.append_assoc]

/-- Axis and button events alone, against a controller that accepts every push: the
run returns normally, ends in the codec state the codec alone reaches, and its effects
are the accepted pushes of one message per generated action, in order. -/
theorem run_inputs {σ κ γ : Type} (E : Env σ κ γ) (stack : Nat → sc_control_msg)
    (hpush : ∀ c m, (E.sc_controller_push_msg c m).2 = true)
    (events : List sc_gamepad_input_event) :
    ∀ (n : Nat) (gamepad : sc_gamepad_uhid σ κ),
      (∀ a ∈ (codec_inputs E gamepad.hid events).2, a.size ≤ E.SC_HID_MAX_SIZE) →
      ∃ (final : sc_gamepad_uhid σ κ) (sent : List sc_control_msg),
        (run E stack n (events.map sc_gamepad_input_event.to_event) gamepad :
          Except Fault (sc_gamepad_uhid σ κ × List (Effect γ))) =
          Except.ok (final, sent.map (fun m => Effect.push m true)) ∧
        final.hid = (codec_inputs E gamepad.hid events).1 ∧
        List.Forall₂ carries sent (codec_inputs E gamepad.hid events).2 := by
  induction events with
  | nil =>
    intro n gamepad _
    exact ⟨gamepad, [], rfl, rfl, List.Forall₂.nil⟩
  | cons event rest ih =>
    intro n gamepad hsize
    have key : ∀ (hid : sc_hid_gamepad σ) (o : Option sc_hid_input),
        generate_input E gamepad.hid event = (hid, o) →
        (∀ a ∈ o, a.size ≤ E.SC_HID_MAX_SIZE) →
        ∃ (g1 : sc_gamepad_uhid σ κ) (l : List sc_control_msg),
          (process_event E gamepad event.to_event (stack n) :
            Except Fault (sc_gamepad_uhid σ κ × List (Effect γ))) =
            Except.ok (g1, l.map (fun m => Effect.push m true)) ∧
          g1.hid = hid ∧ List.Forall₂ carries l o.toList := by
      intro hid o hgen ho
      cases event with
      | inl e =>
        simp only [generate_input] at hgen
        cases o with
        | none =>
          exact ⟨{ hid := hid, controller := gamepad.controller }, [], by
            simp [process_event, sc_gamepad_input_event.to_event,
              sc_gamepad_processor_process_gamepad_axis, hgen], rfl, List.Forall₂.nil⟩
        | some a =>
          obtain ⟨m, hc, hsend⟩ := send_input_eq E
            { hid := hid, controller := gamepad.controller } a "gamepad axis" (stack n)
            (ho a rfl)
          refine ⟨⟨hid, (E.sc_controller_push_msg gamepad.controller m).1⟩, [m], ?_, rfl,
            List.Forall₂.cons hc List.Forall₂.nil⟩
          · simp only [process_event, sc_gamepad_input_event.to_event,
              sc_gamepad_processor_process_gamepad_axis, hgen, hsend, push_or_log_eq, hpush]
            rfl
      | inr e =>
        simp only [generate_input] at hgen
        cases o with
        | none =>
          exact ⟨{ hid := hid, controller := gamepad.controller }, [], by
            simp [process_event, sc_gamepad_input_event.to_event,
              sc_gamepad_processor_process_gamepad_button, hgen], rfl, List.Forall₂.nil⟩
        | some a =>
          obtain ⟨m, hc, hsend⟩ := send_input_eq E
            { hid := hid, controller := gamepad.controller } a "gamepad button" (stack n)
            (ho a rfl)
          refine ⟨⟨hid, (E.sc_controller_push_msg gamepad.controller m).1⟩, [m], ?_, rfl,
            List.Forall₂.cons hc List.Forall₂.nil⟩
          · simp only [process_event, sc_gamepad_input_event.to_event,
              sc_gamepad_processor_process_gamepad_button, hgen, hsend, push_or_log_eq,
              hpush]
            rfl
    rcases hgen : generate_input E gamepad.hid event with ⟨hid1, o⟩
    have hco : codec_inputs E gamepad.hid (event :: rest) =
        ((codec_inputs E hid1 rest).1, o.toList ++ (codec_inputs E hid1 rest).2) := by
      cases o <;> simp [codec_inputs, hgen]
    rw [hco] at hsize ⊢
    obtain ⟨g1, l, hstep, hg1, hl⟩ := key hid1 o hgen (by
      intro a ha
      exact hsize a (by simp [Option.mem_def.mp ha]))
    obtain ⟨final, sent, hrun, hfinal, hsent⟩ := ih (n + 1) g1 (by
      intro a ha
      rw [hg1] at ha
      exact hsize a (by simp [ha]))
    refine ⟨final, l ++ sent, ?_, ?_, ?_⟩
    · simp only [List.map_cons, run, hstep, hrun, List.map_append]
    · rw [hfinal, hg1]
    · rw [hg1] at hsent
      exact List.rel_append hl hsent

/-- C4: run from the state of `sc_gamepad_uhid_init`, against a codec that opens the
gamepad on the device id `h`, answers every axis or button event of the sequence either
with a failure or with an input action for `h` (of a size within `SC_HID_MAX_SIZE`), and
then closes it on `h`, and a controller that accepts every push, the sequence ADDED,
axis and button events, REMOVED returns normally and its effects are accepted pushes
only: first one UHID_CREATE message with id `h`, then one UHID_INPUT message with id
`h` for each event whose generation succeeded, in event order, each carrying the
action generated for it, none for a failed generation, and last one UHID_DESTROY
message with id `h`. -/
theorem lifecycle_messages {σ κ γ : Type} (E : Env σ κ γ) (stack : Nat → sc_control_msg)
    (controller : κ) (gamepad_id h : Nat) (events : List sc_gamepad_input_event)
    (hid1 hid3 : sc_hid_gamepad σ) (hid_open : sc_hid_open) (hid_close : sc_hid_close)
    (hpush : ∀ c m, (E.sc_controller_push_msg c m).2 = true)
    (hopen : E.sc_hid_gamepad_generate_open E.sc_hid_gamepad_init gamepad_id =
      (hid1, some hid_open))
    (hopen_id : hid_open.hid_id = h)
    (hinputs : ∀ a ∈ (codec_inputs E hid1 events).2,
      a.hid_id = h ∧ a.size ≤ E.SC_HID_MAX_SIZE)
    (hclose : E.sc_hid_gamepad_generate_close (codec_inputs E hid1 events).1 gamepad_id =
      (hid3, some hid_close))
    (hclose_id : hid_close.hid_id = h) :
    ∃ (final : sc_gamepad_uhid σ κ) (created : sc_control_msg)
      (inputs : List sc_control_msg) (destroyed : sc_control_msg),
      (run E stack 0 (lifecycle gamepad_id events) (sc_gamepad_uhid_init E controller) :
        Except Fault (sc_gamepad_uhid σ κ × List (Effect γ))) =
        Except.ok (final,
          (created :: (inputs ++ [destroyed])).map (fun m => Effect.push m true)) ∧
      Except.map (fun r => pushes r.2)
        (run E stack 0 (lifecycle gamepad_id events) (sc_gamepad_uhid_init E controller) :
          Except Fault (sc_gamepad_uhid σ κ × List (Effect γ))) =
        Except.ok (created :: (inputs ++ [destroyed])) ∧
      created.type = sc_control_msg_type.UHID_CREATE ∧ created.uhid_create_id = h ∧
      List.Forall₂ carries inputs (codec_inputs E hid1 events).2 ∧
      (∀ m ∈ inputs, m.type = sc_control_msg_type.UHID_INPUT ∧ m.uhid_input_id = h) ∧
      destroyed.type = sc_control_msg_type.UHID_DESTROY ∧ destroyed.uhid_destroy_id = h := by
  have hadd := device_added_eq E (sc_gamepad_uhid_init E controller) gamepad_id (stack 0)
    hid1 hid_open hopen
  obtain ⟨g2, inputs, hrun, hg2, hcar⟩ := run_inputs E stack hpush events 1
    ⟨hid1, (E.sc_controller_push_msg controller
      ⟨sc_control_msg_type.UHID_CREATE, hid_open.hid_id, hid_open.report_desc,
        hid_open.report_desc_size, (stack 0).size, (stack 0).data⟩).1⟩
    (fun a ha => (hinputs a ha).2)
  have hrem := device_removed_eq E g2 gamepad_id (stack (1 + events.length)) hid3 hid_close
    (by rw [hg2]; exact hclose)
  have hmain : (run E stack 0 (lifecycle gamepad_id events)
      (sc_gamepad_uhid_init E controller) :
        Except Fault (sc_gamepad_uhid σ κ × List (Effect γ))) =
      Except.ok (⟨hid3, (E.sc_controller_push_msg g2.controller
          ⟨sc_control_msg_type.UHID_DESTROY, hid_close.hid_id,
            (stack (1 + events.length)).report_desc,
            (stack (1 + events.length)).report_desc_size,
            (stack (1 + events.length)).size, (stack (1 + events.length)).data⟩).1⟩,
        ((⟨sc_control_msg_type.UHID_CREATE, hid_open.hid_id, hid_open.report_desc,
            hid_open.report_desc_size, (stack 0).size, (stack 0).data⟩ : sc_control_msg) ::
          (inputs ++ [⟨sc_control_msg_type.UHID_DESTROY, hid_close.hid_id,
            (stack (1 + events.length)).report_desc,
            (stack (1 + events.length)).report_desc_size,
            (stack (1 + events.length)).size, (stack (1 + events.length)).data⟩])).map
          (fun m => Effect.push m true)) := by
    simp only [lifecycle, run, process_event, hadd, push_or_log_eq, hpush, Nat.zero_add]
    rw [run_append]
    simp only [sc_gamepad_uhid_init, hrun, List.length_map, run, process_event, hrem,
      push_or_log_eq, hpush]
    simp
  refine ⟨_, _, inputs, _, hmain, ?_, rfl, hopen_id, hcar, ?_, rfl, hclose_id⟩
  · rw [hmain]
    simp only [Except.map]
    rw [pushes_map_push]
  · exact carries_id_of_forall₂ h inputs _ hcar (fun a ha => (hinputs a ha).1)

/-- Witness of C4 on the sample environment with the first gamepad id 48: the gamepad 7
added, axis X to its maximum, button A pressed, removed gives Create, Input (axis),
Input (button), Destroy, all with the id 48. -/
theorem lifecycle_messages_witness :
    Except.map (fun r => (pushes r.2).map summary)
      (run (sample_env 48) (fun _ => sample_junk) 0 (lifecycle 7 sample_events)
        (sc_gamepad_uhid_init (sample_env 48) []) :
        Except Fault (sc_gamepad_uhid sample_report (List sc_control_msg) ×
          List (Effect Nat))) =
      Except.ok [(sc_control_msg_type.UHID_CREATE, 48), (sc_control_msg_type.UHID_INPUT, 48),
        (sc_control_msg_type.UHID_INPUT, 48), (sc_control_msg_type.UHID_DESTROY, 48)] ∧
    Except.map (fun r => ((pushes r.2).filter
        (fun m => decide (m.type = sc_control_msg_type.UHID_INPUT))).map report)
      (run (sample_env 48) (fun _ => sample_junk) 0 (lifecycle 7 sample_events)
        (sc_gamepad_uhid_init (sample_env 48) []) :
        Except Fault (sc_gamepad_uhid sample_report (List sc_control_msg) ×
          List (Effect Nat))) =
      Except.ok [[255, 128, 128, 128, 0, 0, 0, 0], [255, 128, 128, 128, 0, 0, 1, 0]] ∧
    (∀ a ∈ (codec_inputs (sample_env 48) (sample_bound 48).hid sample_events).2,
      a.hid_id = 48 ∧ a.size ≤ (sample_env 48).SC_HID_MAX_SIZE) ∧
    ∃ (final : sc_gamepad_uhid sample_report (List sc_control_msg))
      (created : sc_control_msg) (inputs : List sc_control_msg)
      (destroyed : sc_control_msg),
      (run (sample_env 48) (fun _ => sample_junk) 0 (lifecycle 7 sample_events)
        (sc_gamepad_uhid_init (sample_env 48) []) :
        Except Fault (sc_gamepad_uhid sample_report (List sc_control_msg) ×
          List (Effect Nat))) =
        Except.ok (final,
          (created :: (inputs ++ [destroyed])).map (fun m => Effect.push m true)) ∧
      Except.map (fun r => pushes r.2)
        (run (sample_env 48) (fun _ => sample_junk) 0 (lifecycle 7 sample_events)
          (sc_gamepad_uhid_init (sample_env 48) []) :
          Except Fault (sc_gamepad_uhid sample_report (List sc_control_msg) ×
            List (Effect Nat))) =
        Except.ok (created :: (inputs ++ [destroyed])) ∧
      created.type = sc_control_msg_type.UHID_CREATE ∧ created.uhid_create_id = 48 ∧
      List.Forall₂ carries inputs
        (codec_inputs (sample_env 48) (sample_bound 48).hid sample_events).2 ∧
      (∀ m ∈ inputs, m.type = sc_control_msg_type.UHID_INPUT ∧ m.uhid_input_id = 48) ∧
      destroyed.type = sc_control_msg_type.UHID_DESTROY ∧ destroyed.uhid_destroy_id = 48 :=
  have hinputs : ∀ a ∈ (codec_inputs (sample_env 48) (sample_bound 48).hid sample_events).2,
      a.hid_id = 48 ∧ a.size ≤ (sample_env 48).SC_HID_MAX_SIZE := by decide
  ⟨rfl, rfl, hinputs,
    lifecycle_messages (sample_env 48) (fun _ => sample_junk) [] 7 48 sample_events
      (sample_bound 48).hid
      ((sample_env 48).sc_hid_gamepad_generate_close
        (codec_inputs (sample_env 48) (sample_bound 48).hid sample_events).1 7).1
      ⟨48, [5, 1, 9, 5], 4⟩ ⟨48⟩ (fun _ _ => rfl) rfl rfl hinputs rfl rfl⟩

/-! ## The HID output handler -/

/-- The effects of the output handler for an id in range and a payload of 7 bytes or
more. -/
theorem process_hid_output_ok {σ κ γ : Type} (E : Env σ κ γ)
    (gamepad : sc_gamepad_uhid σ κ) (hid_id : Nat) (data : List uint8_t)
    (slot : sc_hid_gamepad_slot σ) (hfirst : E.SC_HID_ID_GAMEPAD_FIRST ≤ hid_id)
    (hslot : gamepad.hid.slots[hid_id - E.SC_HID_ID_GAMEPAD_FIRST]? = some slot)
    (hsize : 7 ≤ data.length) :
    (sc_gamepad_uhid_process_hid_output E gamepad hid_id data :
      Except Fault (List (Effect γ))) =
      Except.ok [Effect.logi hid_id (E.sc_str_to_hex_string data),
        Effect.rumble (E.SDL_GameControllerFromInstanceID slot.gamepad_id)
          (rumble_intensity data[4]) (rumble_intensity data[5]) (rumble_duration data[6])] := by
  have h4 : data[4]? = some data[4] := List.getElem?_eq_getElem (by omega)
  have h5 : data[5]? = some data[5] := List.getElem?_eq_getElem (by omega)
  have h6 : data[6]? = some data[6] := List.getElem?_eq_getElem (by omega)
  simp only [sc_gamepad_uhid_process_hid_output, Nat.not_lt.mpr hfirst, if_false, hslot,
    h4, h5, h6]

/-- Whenever the output handler returns normally it made one force-feedback call,
from the bytes 4, 5 and 6 of the payload. -/
theorem process_hid_output_inv {σ κ γ : Type} (E : Env σ κ γ)
    (gamepad : sc_gamepad_uhid σ κ) (hid_id : Nat) (data : List uint8_t)
    (effects : List (Effect γ))
    (h : sc_gamepad_uhid_process_hid_output E gamepad hid_id data = Except.ok effects) :
    ∃ (gc : Option γ) (d4 d5 d6 : uint8_t),
      data[4]? = some d4 ∧ data[5]? = some d5 ∧ data[6]? = some d6 ∧
      rumbles effects =
        [(gc, rumble_intensity d4, rumble_intensity d5, rumble_duration d6)] := by
  unfold sc_gamepad_uhid_process_hid_output at h
  split at h
  · cases h
  · split at h
    · cases h
    · split at h
      · next slot _ d4 d5 d6 h4 h5 h6 =>
        cases h
        exact ⟨_, d4, d5, d6, h4, h5, h6, rfl⟩
      · cases h

/-- An intensity byte of at most 100 is remapped below 65536. -/
theorem intensity_no_wrap (b : uint8_t) (h : b.val ≤ 100) :
    b.val * 65535 / 100 % 65536 = b.val * 65535 / 100 := by
  apply Nat.mod_eq_of_lt
  omega

/-- A duration byte is remapped below 2 ^ 32. -/
theorem duration_no_wrap (b : uint8_t) :
    b.val * 1000 / 255 % 4294967296 = b.val * 1000 / 255 := by
  apply Nat.mod_eq_of_lt
  have := b.isLt
  omega

/-- C5, as stated, fails: on the sample bridge with the gamepad 7 bound to the first
slot (device id 48), the payload with the byte 101 at offset 4 makes the low-frequency
parameter of the force-feedback call 654, not 101 * 65535 / 100 = 66190: the value is
converted to the 16-bit parameter. -/
theorem process_hid_output_rumble_counterexample :
    ((sample_bound 48).hid.slots[48 - (sample_env 48).SC_HID_ID_GAMEPAD_FIRST]?).map
      (fun slot => slot.gamepad_id) = some 7 ∧
    Except.map rumbles
      (sc_gamepad_uhid_process_hid_output (sample_env 48) (sample_bound 48) 48
        [0, 0, 0, 0, 101, 0, 0]) = Except.ok [(some 7, 654, 0, 0)] ∧
    101 * 65535 / 100 = 66190 ∧ 654 ≠ 101 * 65535 / 100 :=
  ⟨rfl, rfl, rfl, by decide⟩

/-- C5, amended: for every hid_id whose slot index `hid_id - SC_HID_ID_GAMEPAD_FIRST`
lies in the slot array (the slot bound or not) and every payload of at least 7 bytes,
the handler returns normally and its effects are the log line and then one
force-feedback call, on the handle looked up from the gamepad_id stored in that slot,
with the low-frequency parameter `data[4] * 65535 / 100` reduced modulo 65536, the
high-frequency parameter `data[5] * 65535 / 100` reduced modulo 65536 and the duration
`data[6] * 1000 / 255`, in that order; the reduction changes nothing for an intensity
byte of at most 100; a payload with the same bytes at the offsets 4, 5, 6 gives the
same call. -/
theorem process_hid_output_rumble {σ κ γ : Type} (E : Env σ κ γ)
    (gamepad : sc_gamepad_uhid σ κ) (hid_id : Nat) (data : List uint8_t)
    (slot : sc_hid_gamepad_slot σ) (hfirst : E.SC_HID_ID_GAMEPAD_FIRST ≤ hid_id)
    (hslot : gamepad.hid.slots[hid_id - E.SC_HID_ID_GAMEPAD_FIRST]? = some slot)
    (hsize : 7 ≤ data.length) :
    (sc_gamepad_uhid_process_hid_output E gamepad hid_id data :
      Except Fault (List (Effect γ))) =
      Except.ok [Effect.logi hid_id (E.sc_str_to_hex_string data),
        Effect.rumble (E.SDL_GameControllerFromInstanceID slot.gamepad_id)
          (data[4].val * 65535 / 100 % 65536) (data[5].val * 65535 / 100 % 65536)
          (data[6].val * 1000 / 255)] ∧
    (data[4].val ≤ 100 → data[4].val * 65535 / 100 % 65536 = data[4].val * 65535 / 100) ∧
    (data[5].val ≤ 100 → data[5].val * 65535 / 100 % 65536 = data[5].val * 65535 / 100) ∧
    ∀ (other : List uint8_t) (hother : 7 ≤ other.length),
      other[4] = data[4] → other[5] = data[5] → other[6] = data[6] →
      Except.map rumbles (sc_gamepad_uhid_process_hid_output E gamepad hid_id other :
        Except Fault (List (Effect γ))) =
      Except.map rumbles (sc_gamepad_uhid_process_hid_output E gamepad hid_id data :
        Except Fault (List (Effect γ))) := by
  refine ⟨?_, intensity_no_wrap _, intensity_no_wrap _, ?_⟩
  · rw [process_hid_output_ok E gamepad hid_id data slot hfirst hslot hsize]
    simp only [rumble_intensity, rumble_duration, to_Uint16, to_Uint32, intensity_expr,
      duration_expr]
    have := duration_no_wrap data[6]
    norm_num at this ⊢
    exact this
  · intro other hother e4 e5 e6
    rw [process_hid_output_ok E gamepad hid_id data slot hfirst hslot hsize,
      process_hid_output_ok E gamepad hid_id other slot hfirst hslot hother, e4, e5, e6]
    rfl

/-- Witness of C5 (amended) on the sample bridge with the gamepad 7 bound. -/
theorem process_hid_output_rumble_witness :
    (sample_env 48).SC_HID_ID_GAMEPAD_FIRST ≤ 48 ∧
    Except.map rumbles
      (sc_gamepad_uhid_process_hid_output (sample_env 48) (sample_bound 48) 48
        [9, 9, 9, 9, 50, 100, 128, 9]) = Except.ok [(some 7, 32767, 65535, 501)] ∧
    (sc_gamepad_uhid_process_hid_output (sample_env 48) (sample_bound 48) 48
        [9, 9, 9, 9, 50, 100, 128, 9] : Except Fault (List (Effect Nat))) =
      Except.ok [Effect.logi 48 ((sample_env 48).sc_str_to_hex_string
          [9, 9, 9, 9, 50, 100, 128, 9]),
        Effect.rumble ((sample_env 48).SDL_GameControllerFromInstanceID 7)
          (50 * 65535 / 100 % 65536) (100 * 65535 / 100 % 65536) (128 * 1000 / 255)] :=
  ⟨by decide, rfl,
    (process_hid_output_rumble (sample_env 48) (sample_bound 48) 48
      [9, 9, 9, 9, 50, 100, 128, 9] ⟨7, sample_rest⟩ (by decide) rfl (by decide)).1⟩

/-- C6: for every report intensity byte `i ≤ 100`, the value `i * 65535 / 100` of the
argument expression is at most 65535, so the 16-bit parameter receives it unchanged (no
wrap-around); 0 gives 0 and 100 gives 65535; and in every call the handler makes, the
low-frequency parameter is this remap of the byte at offset 4 and the high-frequency
parameter this remap of the byte at offset 5, each of its own byte only. -/
theorem intensity_remap (i : uint8_t) (hi : i.val ≤ 100) :
    intensity_expr i = i.val * 65535 / 100 ∧ intensity_expr i ≤ 65535 ∧
    rumble_intensity i = i.val * 65535 / 100 ∧
    rumble_intensity 0 = 0 ∧ rumble_intensity 100 = 65535 ∧
    ∀ {σ κ γ : Type} (E : Env σ κ γ) (gamepad : sc_gamepad_uhid σ κ) (hid_id : Nat)
      (data : List uint8_t) (effects : List (Effect γ)),
      sc_gamepad_uhid_process_hid_output E gamepad hid_id data = Except.ok effects →
      ∃ (gc : Option γ) (d4 d5 : uint8_t) (duration_ms : Nat),
        data[4]? = some d4 ∧ data[5]? = some d5 ∧
        rumbles effects = [(gc, rumble_intensity d4, rumble_intensity d5, duration_ms)] := by
  refine ⟨rfl, ?_, ?_, by decide, by decide, ?_⟩
  · simp only [intensity_expr]
    omega
  · simp only [rumble_intensity, to_Uint16, intensity_expr]
    exact intensity_no_wrap i hi
  · intro σ κ γ E gamepad hid_id data effects h
    obtain ⟨gc, d4, d5, d6, h4, h5, -, hr⟩ :=
      process_hid_output_inv E gamepad hid_id data effects h
    exact ⟨gc, d4, d5, _, h4, h5, hr⟩

/-- Witness of C6 at the intensity byte 50. -/
theorem intensity_remap_witness :
    ((50 : uint8_t).val ≤ 100) ∧ intensity_expr 50 ≤ 65535 ∧ rumble_intensity 50 = 32767 :=
  ⟨by decide, (intensity_remap 50 (by decide)).2.1, (intensity_remap 50 (by decide)).2.2.1⟩

/-- C7: for every report duration byte `d` (0..255), the duration parameter of the
force-feedback call is `d * 1000 / 255` rounded down, in milliseconds, and lies in
0..1000; 0 gives 0, 255 gives 1000 and 128 gives 501; and in every call the handler
makes, the duration parameter is this remap of the byte at offset 6. -/
theorem duration_remap (d : uint8_t) :
    duration_expr d = d.val * 1000 / 255 ∧ rumble_duration d = d.val * 1000 / 255 ∧
    rumble_duration d ≤ 1000 ∧
    rumble_duration 0 = 0 ∧ rumble_duration 255 = 1000 ∧ rumble_duration 128 = 501 ∧
    ∀ {σ κ γ : Type} (E : Env σ κ γ) (gamepad : sc_gamepad_uhid σ κ) (hid_id : Nat)
      (data : List uint8_t) (effects : List (Effect γ)),
      sc_gamepad_uhid_process_hid_output E gamepad hid_id data = Except.ok effects →
      ∃ (gc : Option γ) (low high : Nat) (d6 : uint8_t),
        data[6]? = some d6 ∧ rumbles effects = [(gc, low, high, rumble_duration d6)] := by
  have hd : rumble_duration d = d.val * 1000 / 255 := by
    simp only [rumble_duration, to_Uint32, duration_expr]
    exact duration_no_wrap d
  refine ⟨rfl, hd, ?_, by decide, by decide, by decide, ?_⟩
  · rw [hd]
    have := d.isLt
    omega
  · intro σ κ γ E gamepad hid_id data effects h
    obtain ⟨gc, d4, d5, d6, -, -, h6, hr⟩ :=
      process_hid_output_inv E gamepad hid_id data effects h
    exact ⟨gc, _, _, d6, h6, hr⟩

/-- C8, as stated, fails: the bytes 100 ≤ 101 give the 16-bit intensity parameters
65535 and 654, so the intensity remap is not monotonic over all byte values. -/
theorem intensity_not_monotone :
    (100 : uint8_t) ≤ 101 ∧ rumble_intensity 100 = 65535 ∧ rumble_intensity 101 = 654 ∧
    ¬ rumble_intensity 100 ≤ rumble_intensity 101 :=
  ⟨by decide, by decide, by decide, by decide⟩

/-- C8, amended: for every two report bytes `a ≤ b`, the duration parameter for `a` is
at most the one for `b`; and when `b ≤ 100`, the range of a report intensity, the
intensity parameter (low or high frequency) for `a` is at most the one for `b`. -/
theorem rumble_remap_monotone (a b : uint8_t) (hab : a ≤ b) :
    rumble_duration a ≤ rumble_duration b ∧
    (b.val ≤ 100 → rumble_intensity a ≤ rumble_intensity b) := by
  have hab' : a.val ≤ b.val := hab
  constructor
  · simp only [rumble_duration, to_Uint32, duration_expr]
    have ha := duration_no_wrap a
    have hb := duration_no_wrap b
    norm_num at ha hb ⊢
    rw [Nat.mod_eq_of_lt ha, Nat.mod_eq_of_lt hb]
    exact Nat.div_le_div_right (Nat.mul_le_mul_right 1000 hab')
  · intro hb
    simp only [rumble_intensity, to_Uint16, intensity_expr]
    have ha := intensity_no_wrap a (le_trans hab' hb)
    have hb' := intensity_no_wrap b hb
    norm_num at ha hb' ⊢
    rw [Nat.mod_eq_of_lt ha, Nat.mod_eq_of_lt hb']
    exact Nat.div_le_div_right (Nat.mul_le_mul_right 65535 hab')

/-- Witness of C8 (amended) at the bytes 50 ≤ 100. -/
theorem rumble_remap_monotone_witness :
    (50 : uint8_t) ≤ 100 ∧ rumble_duration 50 ≤ rumble_duration 100 ∧
    rumble_intensity 50 ≤ rumble_intensity 100 :=
  ⟨by decide, (rumble_remap_monotone 50 100 (by decide)).1,
    (rumble_remap_monotone 50 100 (by decide)).2 (by decide)⟩

/-- C9, as stated, fails: on the sample bridge just initialised, where the first slot
holds the unbound sentinel, an output report for the device id 48 is not dropped: the
force-feedback call is made, on the null handle. -/
theorem process_hid_output_unbound_counterexample :
    ((sc_gamepad_uhid_init (sample_env 48) ([] : List sc_control_msg)).hid.slots[
        48 - (sample_env 48).SC_HID_ID_GAMEPAD_FIRST]?).map
      (fun slot => slot.gamepad_id) = some sample_invalid ∧
    Except.map rumbles
      (sc_gamepad_uhid_process_hid_output (sample_env 48)
        (sc_gamepad_uhid_init (sample_env 48) []) 48 [0, 0, 0, 0, 100, 100, 255]) =
      Except.ok [(none, 65535, 65535, 1000)] ∧
    Except.map rumbles
      (sc_gamepad_uhid_process_hid_output (sample_env 48)
        (sc_gamepad_uhid_init (sample_env 48) []) 48 [0, 0, 0, 0, 100, 100, 255]) ≠
      Except.ok [] :=
  ⟨rfl, rfl, by
    intro h
    cases h⟩

/-- C9, amended: for every hid_id whose slot index lies in the slot array, whose slot
holds the unbound sentinel `SC_GAMEPAD_ID_INVALID`, and every payload of at least 7
bytes, the handler does not test the binding: it returns normally, without an error,
and its effects are the log line and one force-feedback call, on the handle that the
lookup returns for the sentinel (the null handle when the lookup knows no controller of
that id), with the remapped bytes 4, 5 and 6. -/
theorem process_hid_output_unbound {σ κ γ : Type} (E : Env σ κ γ)
    (gamepad : sc_gamepad_uhid σ κ) (hid_id : Nat) (data : List uint8_t)
    (slot : sc_hid_gamepad_slot σ) (SC_GAMEPAD_ID_INVALID : Nat)
    (hfirst : E.SC_HID_ID_GAMEPAD_FIRST ≤ hid_id)
    (hslot : gamepad.hid.slots[hid_id - E.SC_HID_ID_GAMEPAD_FIRST]? = some slot)
    (hunbound : slot.gamepad_id = SC_GAMEPAD_ID_INVALID)
    (hsize : 7 ≤ data.length) :
    (sc_gamepad_uhid_process_hid_output E gamepad hid_id data :
      Except Fault (List (Effect γ))) =
      Except.ok [Effect.logi hid_id (E.sc_str_to_hex_string data),
        Effect.rumble (E.SDL_GameControllerFromInstanceID SC_GAMEPAD_ID_INVALID)
          (rumble_intensity data[4]) (rumble_intensity data[5]) (rumble_duration data[6])] ∧
    (E.SDL_GameControllerFromInstanceID SC_GAMEPAD_ID_INVALID = none →
      Except.map rumbles (sc_gamepad_uhid_process_hid_output E gamepad hid_id data :
        Except Fault (List (Effect γ))) =
      Except.ok [(none, rumble_intensity data[4], rumble_intensity data[5],
        rumble_duration data[6])]) := by
  have hok := process_hid_output_ok E gamepad hid_id data slot hfirst hslot hsize
  rw [hunbound] at hok
  refine ⟨hok, ?_⟩
  intro hnull
  rw [hok, hnull]
  rfl

/-- Witness of C9 (amended) on the sample bridge just initialised. -/
theorem process_hid_output_unbound_witness :
    (sample_env 48).SC_HID_ID_GAMEPAD_FIRST ≤ 48 ∧
    (sample_env 48).SDL_GameControllerFromInstanceID sample_invalid = none ∧
    Except.map rumbles
      (sc_gamepad_uhid_process_hid_output (sample_env 48)
        (sc_gamepad_uhid_init (sample_env 48) []) 48 [0, 0, 0, 0, 100, 100, 255] :
        Except Fault (List (Effect Nat))) =
      Except.ok [(none, rumble_intensity 100, rumble_intensity 100, rumble_duration 255)] :=
  ⟨by decide, rfl,
    (process_hid_output_unbound (sample_env 48) (sc_gamepad_uhid_init (sample_env 48) []) 48
      [0, 0, 0, 0, 100, 100, 255] ⟨sample_invalid, sample_rest⟩ sample_invalid
      (by decide) rfl rfl (by decide)).2 rfl⟩

/-- C10, on the code: for every bridge, hid_id and payload of fewer than 7 bytes, the
handler does not drop the payload: it leaves the defined behaviour by an access outside
an array (the slot array when the id is out of range, else the payload, whose element 6
it reads). -/
theorem process_hid_output_short {σ κ γ : Type} (E : Env σ κ γ)
    (gamepad : sc_gamepad_uhid σ κ) (hid_id : Nat) (data : List uint8_t)
    (hsize : data.length < 7) :
    (sc_gamepad_uhid_process_hid_output E gamepad hid_id data :
      Except Fault (List (Effect γ))) = Except.error Fault.out_of_bounds := by
  have h6 : data[6]? = none := List.getElem?_eq_none (by omega)
  unfold sc_gamepad_uhid_process_hid_output
  split
  · rfl
  · split
    · rfl
    · split
      · next d4 d5 d6 _ _ h => rw [h6] at h; cases h
      · rfl

/-- The failing input of C10: a payload of 6 bytes for the bound device 48 of the sample
bridge. -/
theorem process_hid_output_short_witness :
    ([0, 0, 0, 0, 50, 50] : List uint8_t).length < 7 ∧
    (sc_gamepad_uhid_process_hid_output (sample_env 48) (sample_bound 48) 48
      [0, 0, 0, 0, 50, 50] : Except Fault (List (Effect Nat))) =
      Except.error Fault.out_of_bounds :=
  ⟨by decide,
    process_hid_output_short (sample_env 48) (sample_bound 48) 48 [0, 0, 0, 0, 50, 50]
      (by decide)⟩

end GamepadUhid
